import Mathlib

/-!
Shallow embedding of `promotions/views.py`: coupon and promotion quota,
claim, archive, detail, usage and merchant-dashboard endpoints of the
EatHub backend. Database rows are lists of records; each view becomes a
function from a database state (plus the resolved caller token and the
request payload) to an HTTP response paired with the successor state.
Object-relational lookups (`filter`, `exists`, `count`, `get_object_or_404`)
become list traversals keyed on the primary-key fields the code filters on.
-/

/-- A user row: role string, VIP flag and the optionally bound restaurant
(the restaurant's primary key). Token resolution is external; views receive
the caller's uuid already extracted. -/
structure User where
  uuid : Nat
  role : String
  is_vip : Bool
  restaurant : Option Nat
deriving Repr, DecidableEq

/-- A coupon row. `restaurant` is the owning restaurant's key; the create
view passes `user.restaurant` through unchecked, so it is kept optional. -/
structure Coupon where
  uuid : Nat
  restaurant : Option Nat
  title : String
  terms : String
  is_archived : Bool
deriving Repr, DecidableEq

/-- A promotion row. -/
structure Promotion where
  uuid : Nat
  restaurant : Option Nat
  is_archived : Bool
deriving Repr, DecidableEq

/-- A user-coupon claim row, keyed by the user and coupon primary keys. -/
structure UserCoupon where
  user : Nat
  coupon : Nat
  is_used : Bool
deriving Repr, DecidableEq

/-- A subscription row; `ended_at` is a day number (dates ordered by ≤). -/
structure Subscription where
  user : Nat
  ended_at : Nat
deriving Repr, DecidableEq

/-- The database state the promotions module reads and writes. The two
counters supply fresh primary keys for created rows. -/
structure DB where
  users : List User
  coupons : List Coupon
  promotions : List Promotion
  userCoupons : List UserCoupon
  subscriptions : List Subscription
  nextCouponId : Nat
  nextPromotionId : Nat
deriving Repr, DecidableEq

/-- Modelled from the spec: serialization/field validation mechanics are an
external collaborator (`CouponSerializer.is_valid`), so a request payload
carries its validity verdict together with the coupon fields it would save. -/
structure CouponPayload where
  valid : Bool
  title : String
  terms : String
deriving Repr, DecidableEq

/-- Modelled from the spec: `PromotionsCreateSerializer.is_valid` is external;
the payload carries only its validity verdict. -/
structure PromotionPayload where
  valid : Bool
deriving Repr, DecidableEq

/-- Response bodies, one constructor per JSON shape the module emits. -/
inductive Body where
  | success : Bool → Body
  | errorMsg : String → Body
  | couponCreated : Coupon → Body
  | promotionCreated : Promotion → Body
  | merchantResult : String → Bool → Bool → Option Nat → Body
  | usageResult : String → List UserCoupon → Body
  | couponDetail : Coupon → Nat → Nat → Body
  | promotionDetail : Promotion → Body
deriving Repr, DecidableEq

/-- An HTTP response: status code and JSON body. -/
structure Resp where
  status : Nat
  body : Body
deriving Repr, DecidableEq

/-- `User.objects.filter(uuid=...).first()` / `get_object_or_404(User, uuid=...)`. -/
def findUser (db : DB) (uid : Nat) : Option User :=
  db.users.find? (fun u => u.uuid == uid)

/-- `get_object_or_404(Coupon, uuid=uuid)` (no archived filter). -/
def findCoupon (db : DB) (cid : Nat) : Option Coupon :=
  db.coupons.find? (fun c => c.uuid == cid)

/-- `get_object_or_404(Coupon, uuid=uuid, is_archived=False)`. -/
def findActiveCoupon (db : DB) (cid : Nat) : Option Coupon :=
  db.coupons.find? (fun c => c.uuid == cid && !c.is_archived)

/-- `get_object_or_404(Promotion, uuid=uuid, is_archived=False)`. -/
def findActivePromotion (db : DB) (pid : Nat) : Option Promotion :=
  db.promotions.find? (fun p => p.uuid == pid && !p.is_archived)

/-- `Coupon.objects.filter(restaurant=r, is_archived=False).exists()`. -/
def hasActiveCoupon (db : DB) (r : Option Nat) : Bool :=
  db.coupons.any (fun c => c.restaurant == r && !c.is_archived)

/-- `Coupon.objects.filter(restaurant=r, is_archived=False).count()`. -/
def activeCouponCount (db : DB) (r : Option Nat) : Nat :=
  (db.coupons.filter (fun c => c.restaurant == r && !c.is_archived)).length

/-- `restaurant.promotions.filter(is_archived=False).count()`. -/
def activePromotionCount (db : DB) (r : Option Nat) : Nat :=
  (db.promotions.filter (fun p => p.restaurant == r && !p.is_archived)).length

/-- `UserCoupon.objects.filter(user=u, coupon=c).exists()`. -/
def hasUserCoupon (db : DB) (uid cid : Nat) : Bool :=
  db.userCoupons.any (fun uc => uc.user == uid && uc.coupon == cid)

/-- Number of UserCoupon rows for a (user, coupon) pair. -/
def userCouponCount (db : DB) (uid cid : Nat) : Nat :=
  (db.userCoupons.filter (fun uc => uc.user == uid && uc.coupon == cid)).length

/-- `UserCoupon.objects.filter(coupon=c)` (the usage / counting queryset). -/
def couponClaims (db : DB) (cid : Nat) : List UserCoupon :=
  db.userCoupons.filter (fun uc => uc.coupon == cid)

/-- `CreateCouponView.post`: 401 when the token resolves to no user, 403 on a
non-merchant role, 403 when the role-specific active-coupon quota is already
met (merchant: any active coupon; vip_merchant: three), then serializer
validation (400 on failure) and creation of a coupon owned by
`user.restaurant` with 201. The view never checks that a restaurant is bound. -/
def createCouponPost (db : DB) (uid : Nat) (p : CouponPayload) : Resp × DB :=
  match findUser db uid with
  | none => (⟨401, Body.success false⟩, db)
  | some user =>
    if ¬(user.role = "merchant" ∨ user.role = "vip_merchant") then
      (⟨403, Body.success false⟩, db)
    else if user.role = "merchant" ∧ hasActiveCoupon db user.restaurant then
      (⟨403, Body.success false⟩, db)
    else if user.role = "vip_merchant" ∧ 3 ≤ activeCouponCount db user.restaurant then
      (⟨403, Body.success false⟩, db)
    else if p.valid then
      (⟨201, Body.couponCreated ⟨db.nextCouponId, user.restaurant, p.title, p.terms, false⟩⟩,
        { db with
            coupons := db.coupons ++ [⟨db.nextCouponId, user.restaurant, p.title, p.terms, false⟩],
            nextCouponId := db.nextCouponId + 1 })
    else
      (⟨400, Body.success false⟩, db)

/-- `ClaimCouponView.post`: 404 when the user or the non-archived coupon is
not found; 200 with success=false when a UserCoupon already exists for the
pair; otherwise creates one row and returns 201. -/
def claimCouponPost (db : DB) (uid : Nat) (cid : Nat) : Resp × DB :=
  match findUser db uid with
  | none => (⟨404, Body.success false⟩, db)
  | some user =>
    match findActiveCoupon db cid with
    | none => (⟨404, Body.success false⟩, db)
    | some coupon =>
      if hasUserCoupon db user.uuid coupon.uuid then
        (⟨200, Body.success false⟩, db)
      else
        (⟨201, Body.success true⟩,
          { db with userCoupons := db.userCoupons ++ [⟨user.uuid, coupon.uuid, false⟩] })

/-- `PromotionCreateView.post`: 404 on unknown user, 403 with a role message
for non-merchants, 403 with the unbound-restaurant message when no restaurant
is bound, then the quota check (limit 3 when role is vip_merchant or the VIP
flag is set, else 1) answered with a 400 carrying the localized message
whose label depends on `user.is_vip` alone, then validation and creation. -/
def promotionCreatePost (db : DB) (uid : Nat) (p : PromotionPayload) : Resp × DB :=
  match findUser db uid with
  | none => (⟨404, Body.success false⟩, db)
  | some user =>
    if ¬(user.role = "merchant" ∨ user.role = "vip_merchant") then
      (⟨403, Body.errorMsg "此帳戶無建立動態權限"⟩, db)
    else if user.restaurant = none then
      (⟨403, Body.errorMsg "帳戶未綁定餐廳"⟩, db)
    else
      let limit : Nat := if user.role = "vip_merchant" ∨ user.is_vip then 3 else 1
      if limit ≤ activePromotionCount db user.restaurant then
        (⟨400, Body.errorMsg ((if user.is_vip then "VIP 商家" else "一般商家")
            ++ " 最多只能建立 " ++ toString limit ++ " 則動態")⟩, db)
      else if p.valid then
        (⟨201, Body.promotionCreated ⟨db.nextPromotionId, user.restaurant, false⟩⟩,
          { db with
              promotions := db.promotions ++ [⟨db.nextPromotionId, user.restaurant, false⟩],
              nextPromotionId := db.nextPromotionId + 1 })
      else
        (⟨400, Body.success false⟩, db)

/-- `user.subscriptions.order_by(descending ended_at).first()`, reduced to the
value that decides the response: the greatest `ended_at` among the caller's
subscription rows, when any exist. -/
def latestSubEnd (db : DB) (uid : Nat) : Option Nat :=
  ((db.subscriptions.filter (fun s => s.user == uid)).map (fun s => s.ended_at)).max?

/-- `MerchantView.get` (body after the external token/role/downgrade
decorators): 404 on unknown user, 403 on a non-merchant role, 400 when no
restaurant is bound; otherwise reports the role, the two limit-reached flags
computed against `max_count` (3 for role vip_merchant, else 1), and the VIP
expiry: the latest subscription end date when it is today or later, else none. -/
def merchantGet (db : DB) (uid : Nat) (today : Nat) : Resp × DB :=
  match findUser db uid with
  | none => (⟨404, Body.success false⟩, db)
  | some user =>
    if ¬(user.role = "merchant" ∨ user.role = "vip_merchant") then
      (⟨403, Body.success false⟩, db)
    else if user.restaurant = none then
      (⟨400, Body.success false⟩, db)
    else
      let max_count : Nat := if user.role = "vip_merchant" then 3 else 1
      (⟨200, Body.merchantResult user.role
          (decide (max_count ≤ activeCouponCount db user.restaurant))
          (decide (max_count ≤ activePromotionCount db user.restaurant))
          (match latestSubEnd db user.uuid with
            | some d => if today ≤ d then some d else none
            | none => none)⟩, db)

/-- `CouponUsageView.get`: 404 on unknown user or coupon (no archived
filter on the coupon lookup), 403 when the caller's restaurant differs from
the coupon's, else 200 with the title and every UserCoupon row of the coupon. -/
def couponUsageGet (db : DB) (uid : Nat) (cid : Nat) : Resp × DB :=
  match findUser db uid with
  | none => (⟨404, Body.success false⟩, db)
  | some user =>
    match findCoupon db cid with
    | none => (⟨404, Body.success false⟩, db)
    | some coupon =>
      if ¬ user.restaurant = coupon.restaurant then
        (⟨403, Body.success false⟩, db)
      else
        (⟨200, Body.usageResult coupon.title (couponClaims db coupon.uuid)⟩, db)

/-- `CouponDetailView.get` (body after the external role decorator): the
coupon lookup filters to non-archived rows (404 otherwise), ownership is
compared afterwards (403 on mismatch), then 200 with claim/use counts. -/
def couponDetailGet (db : DB) (uid : Nat) (cid : Nat) : Resp × DB :=
  match findUser db uid with
  | none => (⟨404, Body.success false⟩, db)
  | some user =>
    match findActiveCoupon db cid with
    | none => (⟨404, Body.success false⟩, db)
    | some coupon =>
      if ¬ user.restaurant = coupon.restaurant then
        (⟨403, Body.success false⟩, db)
      else
        (⟨200, Body.couponDetail coupon (couponClaims db coupon.uuid).length
            (db.userCoupons.filter (fun uc => uc.coupon == coupon.uuid && uc.is_used)).length⟩,
          db)

/-- `coupon.is_archived = True` before `coupon.save()`. -/
def archiveCoupon (c : Coupon) : Coupon :=
  { c with is_archived := true }

/-- `promotion.is_archived = True` before `promotion.save()`. -/
def archivePromotion (p : Promotion) : Promotion :=
  { p with is_archived := true }

/-- `CouponDetailView.patch`: 404 on unknown user, 403 on a non-merchant
role, 400 when no restaurant is bound, then an ownership-scoped lookup
`get_object_or_404(Coupon, uuid=uuid, restaurant=restaurant)` (404 when it
misses, with no archived filter), and the one-way archive write with 200. -/
def couponDetailPatch (db : DB) (uid : Nat) (cid : Nat) : Resp × DB :=
  match findUser db uid with
  | none => (⟨404, Body.success false⟩, db)
  | some user =>
    if ¬(user.role = "merchant" ∨ user.role = "vip_merchant") then
      (⟨403, Body.success false⟩, db)
    else
      match user.restaurant with
      | none => (⟨400, Body.success false⟩, db)
      | some r =>
        match db.coupons.find? (fun c => c.uuid == cid && c.restaurant == some r) with
        | none => (⟨404, Body.success false⟩, db)
        | some _ =>
          (⟨200, Body.success true⟩,
            { db with coupons := db.coupons.map (fun c =>
                if c.uuid == cid && c.restaurant == some r then archiveCoupon c else c) })

/-- `PromotionDetailView.get`: non-archived lookup (404), post-hoc ownership
comparison (403), else 200 with the promotion. -/
def promotionDetailGet (db : DB) (uid : Nat) (pid : Nat) : Resp × DB :=
  match findUser db uid with
  | none => (⟨404, Body.success false⟩, db)
  | some user =>
    match findActivePromotion db pid with
    | none => (⟨404, Body.success false⟩, db)
    | some promotion =>
      if ¬ user.restaurant = promotion.restaurant then
        (⟨403, Body.success false⟩, db)
      else
        (⟨200, Body.promotionDetail promotion⟩, db)

/-- `PromotionDetailView.patch`: same shape as the coupon archive. -/
def promotionDetailPatch (db : DB) (uid : Nat) (pid : Nat) : Resp × DB :=
  match findUser db uid with
  | none => (⟨404, Body.success false⟩, db)
  | some user =>
    if ¬(user.role = "merchant" ∨ user.role = "vip_merchant") then
      (⟨403, Body.success false⟩, db)
    else
      match user.restaurant with
      | none => (⟨400, Body.success false⟩, db)
      | some r =>
        match db.promotions.find? (fun p => p.uuid == pid && p.restaurant == some r) with
        | none => (⟨404, Body.success false⟩, db)
        | some _ =>
          (⟨200, Body.success true⟩,
            { db with promotions := db.promotions.map (fun p =>
                if p.uuid == pid && p.restaurant == some r then archivePromotion p else p) })

/-- The coupon-creation quota a merchant-role user faces in
`CreateCouponView.post`: one active coupon for role merchant, three for
role vip_merchant. -/
def couponCreationLimit (u : User) : Nat :=
  if u.role = "vip_merchant" then 3 else 1

/-- The promotion-creation quota of `PromotionCreateView.post`: three when
the role is vip_merchant or the VIP flag is set, else one. -/
def promotionCreationLimit (u : User) : Nat :=
  if u.role = "vip_merchant" ∨ u.is_vip then 3 else 1

/-- The dashboard's shared `max_count` in `MerchantView.get`: three exactly
for role vip_merchant, ignoring the VIP flag. -/
def dashboardMaxCount (u : User) : Nat :=
  if u.role = "vip_merchant" then 3 else 1

/-- The `is_coupon_limit_reached` flag of a dashboard response, when the
body is a dashboard payload. -/
def Resp.couponFlag : Resp → Option Bool
  | ⟨_, Body.merchantResult _ f _ _⟩ => some f
  | _ => none

/-- The `is_promotion_limit_reached` flag of a dashboard response. -/
def Resp.promotionFlag : Resp → Option Bool
  | ⟨_, Body.merchantResult _ _ f _⟩ => some f
  | _ => none

/-- The `vip_expiry` field of a dashboard response. -/
def Resp.vipExpiry : Resp → Option (Option Nat)
  | ⟨_, Body.merchantResult _ _ _ e⟩ => some e
  | _ => none

/-- Archived rows persist, as the same record, from one state to the next:
the soft-delete flag is never reset by a transition satisfying this. -/
def archivedKept (db db' : DB) : Prop :=
  (∀ c ∈ db.coupons, c.is_archived = true → c ∈ db'.coupons)
  ∧ (∀ q ∈ db.promotions, q.is_archived = true → q ∈ db'.promotions)

example :
    (createCouponPost ⟨[⟨1, "merchant", false, some 0⟩], [], [], [], [], 7, 7⟩
      1 ⟨true, "t", "x"⟩).1.status = 201 := by decide

example :
    (createCouponPost ⟨[⟨1, "merchant", false, some 0⟩], [⟨5, some 0, "a", "b", false⟩],
      [], [], [], 7, 7⟩ 1 ⟨true, "t", "x"⟩).1.status = 403 := by decide

example :
    (promotionCreatePost ⟨[⟨1, "vip_merchant", false, some 0⟩], [],
      [⟨10, some 0, false⟩, ⟨11, some 0, false⟩, ⟨12, some 0, false⟩], [], [], 7, 7⟩
      1 ⟨true⟩).1.body = Body.errorMsg "一般商家 最多只能建立 3 則動態" := by decide

theorem hasActiveCoupon_iff (db : DB) (r : Option Nat) :
    hasActiveCoupon db r = true ↔ 1 ≤ activeCouponCount db r := by
  constructor
  · intro h
    obtain ⟨x, hx, hpx⟩ := List.any_eq_true.mp h
    exact Nat.one_le_iff_ne_zero.mpr (by
      intro hlen
      have hmem : x ∈ db.coupons.filter (fun c => c.restaurant == r && !c.is_archived) :=
        List.mem_filter.mpr ⟨hx, hpx⟩
      rw [activeCouponCount] at hlen
      exact absurd (List.eq_nil_of_length_eq_zero hlen ▸ hmem) (List.not_mem_nil x))
  · intro h
    have hlen : 0 < (db.coupons.filter (fun c => c.restaurant == r && !c.is_archived)).length := h
    obtain ⟨x, hx⟩ := List.exists_mem_of_length_pos hlen
    have := List.mem_filter.mp hx
    exact List.any_eq_true.mpr ⟨x, this.1, this.2⟩

/-- C1: a merchant's coupon creation is denied with 403 exactly when at
least one non-archived coupon exists for the user's restaurant; a
vip_merchant's exactly when at least three exist; under the limit a valid
payload creates a coupon owned by the caller's restaurant and returns 201. -/
theorem createCoupon_quota (db : DB) (uid : Nat) (p : CouponPayload) (u : User)
    (hu : findUser db uid = some u) :
    (u.role = "merchant" →
      (((createCouponPost db uid p).1.status = 403) ↔ 1 ≤ activeCouponCount db u.restaurant))
    ∧ (u.role = "vip_merchant" →
      (((createCouponPost db uid p).1.status = 403) ↔ 3 ≤ activeCouponCount db u.restaurant))
    ∧ (((u.role = "merchant" ∧ activeCouponCount db u.restaurant = 0)
        ∨ (u.role = "vip_merchant" ∧ activeCouponCount db u.restaurant < 3)) →
      p.valid = true →
      (createCouponPost db uid p).1.status = 201
        ∧ (createCouponPost db uid p).2.coupons
            = db.coupons ++ [⟨db.nextCouponId, u.restaurant, p.title, p.terms, false⟩]) := by
  refine ⟨?_, ?_, ?_⟩
  · intro hm
    simp only [createCouponPost, hu]
    rw [if_neg (by simp [hm])]
    by_cases hhas : hasActiveCoupon db u.restaurant
    · rw [if_pos ⟨hm, hhas⟩]
      simpa using (hasActiveCoupon_iff db u.restaurant).mp hhas
    · rw [if_neg (fun h => hhas h.2),
        if_neg (fun h => absurd (hm ▸ h.1) (by decide))]
      have hlt : ¬ 1 ≤ activeCouponCount db u.restaurant :=
        fun hge => hhas ((hasActiveCoupon_iff db u.restaurant).mpr hge)
      by_cases hv : p.valid = true <;> simp [hv, hlt]
  · intro hm
    simp only [createCouponPost, hu]
    rw [if_neg (by simp [hm]),
      if_neg (fun h => absurd (hm ▸ h.1) (by decide))]
    by_cases hge : 3 ≤ activeCouponCount db u.restaurant
    · rw [if_pos ⟨hm, hge⟩]
      simpa using hge
    · rw [if_neg (fun h => hge h.2)]
      by_cases hv : p.valid = true <;> simp [hv, hge]
  · rintro (⟨hm, hcnt⟩ | ⟨hm, hcnt⟩) hv
    · simp only [createCouponPost, hu]
      rw [if_neg (by simp [hm]),
        if_neg (fun h => absurd ((hasActiveCoupon_iff db u.restaurant).mp h.2) (by omega)),
        if_neg (fun h => absurd (hm ▸ h.1) (by decide)), if_pos hv]
      exact ⟨rfl, rfl⟩
    · simp only [createCouponPost, hu]
      rw [if_neg (by simp [hm]),
        if_neg (fun h => absurd (hm ▸ h.1) (by decide)),
        if_neg (fun h => absurd h.2 (by omega)), if_pos hv]
      exact ⟨rfl, rfl⟩

/-- C1 witness: a vip_merchant with two active coupons creates a third. -/
theorem createCoupon_quota_witness :
    (findUser ⟨[⟨1, "vip_merchant", true, some 0⟩],
        [⟨5, some 0, "a", "b", false⟩, ⟨6, some 0, "c", "d", false⟩], [], [], [], 7, 3⟩ 1
      = some ⟨1, "vip_merchant", true, some 0⟩)
    ∧ (((createCouponPost ⟨[⟨1, "vip_merchant", true, some 0⟩],
          [⟨5, some 0, "a", "b", false⟩, ⟨6, some 0, "c", "d", false⟩], [], [], [], 7, 3⟩ 1
          ⟨true, "t", "x"⟩).1.status = 403)
        ↔ 3 ≤ activeCouponCount ⟨[⟨1, "vip_merchant", true, some 0⟩],
          [⟨5, some 0, "a", "b", false⟩, ⟨6, some 0, "c", "d", false⟩], [], [], [], 7, 3⟩ (some 0)) :=
  ⟨by decide,
    (createCoupon_quota _ 1 ⟨true, "t", "x"⟩ ⟨1, "vip_merchant", true, some 0⟩ (by decide)).2.1 rfl⟩

theorem hasUserCoupon_false_of_count_zero (db : DB) (uid cid : Nat)
    (h : userCouponCount db uid cid = 0) : hasUserCoupon db uid cid = false := by
  rw [userCouponCount] at h
  have hnil := List.eq_nil_of_length_eq_zero h
  rw [List.filter_eq_nil_iff] at hnil
  rw [hasUserCoupon]
  rw [List.any_eq_false]
  intro uc hmem
  exact fun hp => hnil uc hmem hp

/-- C2: claiming is idempotent per (user, coupon): with no prior UserCoupon
for the pair, the first claim returns 201 and appends exactly one row (count
becomes 1); the second claim on the resulting state returns 200 with
success=false and leaves the UserCoupon rows unchanged. -/
theorem claimCoupon_idempotent (db : DB) (uid cid : Nat) (u : User) (c : Coupon)
    (hu : findUser db uid = some u)
    (hc : findActiveCoupon db cid = some c)
    (h0 : userCouponCount db u.uuid c.uuid = 0) :
    (claimCouponPost db uid cid).1.status = 201
    ∧ (claimCouponPost db uid cid).2.userCoupons
        = db.userCoupons ++ [⟨u.uuid, c.uuid, false⟩]
    ∧ userCouponCount (claimCouponPost db uid cid).2 u.uuid c.uuid = 1
    ∧ (claimCouponPost (claimCouponPost db uid cid).2 uid cid).1
        = ⟨200, Body.success false⟩
    ∧ (claimCouponPost (claimCouponPost db uid cid).2 uid cid).2.userCoupons
        = (claimCouponPost db uid cid).2.userCoupons := by
  have hno : hasUserCoupon db u.uuid c.uuid = false :=
    hasUserCoupon_false_of_count_zero db u.uuid c.uuid h0
  have h1 : claimCouponPost db uid cid
      = (⟨201, Body.success true⟩,
        { db with userCoupons := db.userCoupons ++ [⟨u.uuid, c.uuid, false⟩] }) := by
    simp only [claimCouponPost, hu, hc, hno]
    simp
  have hu1 : findUser { db with userCoupons := db.userCoupons ++ [⟨u.uuid, c.uuid, false⟩] } uid
      = some u := hu
  have hc1 : findActiveCoupon
      { db with userCoupons := db.userCoupons ++ [⟨u.uuid, c.uuid, false⟩] } cid = some c := hc
  have hyes : hasUserCoupon
      { db with userCoupons := db.userCoupons ++ [⟨u.uuid, c.uuid, false⟩] } u.uuid c.uuid
      = true := by
    rw [hasUserCoupon]
    simp
  have h2 : claimCouponPost
      { db with userCoupons := db.userCoupons ++ [⟨u.uuid, c.uuid, false⟩] } uid cid
      = (⟨200, Body.success false⟩,
        { db with userCoupons := db.userCoupons ++ [⟨u.uuid, c.uuid, false⟩] }) := by
    simp only [claimCouponPost, hu1, hc1, hyes]
    simp
  refine ⟨by rw [h1], by rw [h1], ?_, by rw [h1, h2], by rw [h1, h2]⟩
  rw [h1]
  show userCouponCount { db with userCoupons := db.userCoupons ++ [⟨u.uuid, c.uuid, false⟩] }
      u.uuid c.uuid = 1
  rw [userCouponCount] at h0 ⊢
  simp only [List.filter_append, List.length_append, h0]
  simp

/-- C2 witness: a fresh user claiming a fresh coupon, run to both calls. -/
theorem claimCoupon_idempotent_witness :
    (claimCouponPost ⟨[⟨1, "guest", false, none⟩], [⟨9, some 0, "a", "b", false⟩],
        [], [], [], 2, 2⟩ 1 9).1.status = 201
    ∧ (claimCouponPost (claimCouponPost ⟨[⟨1, "guest", false, none⟩],
        [⟨9, some 0, "a", "b", false⟩], [], [], [], 2, 2⟩ 1 9).2 1 9).1
      = ⟨200, Body.success false⟩ :=
  ⟨(claimCoupon_idempotent ⟨[⟨1, "guest", false, none⟩], [⟨9, some 0, "a", "b", false⟩],
      [], [], [], 2, 2⟩ 1 9 ⟨1, "guest", false, none⟩ ⟨9, some 0, "a", "b", false⟩
      (by decide) (by decide) (by decide)).1,
    (claimCoupon_idempotent ⟨[⟨1, "guest", false, none⟩], [⟨9, some 0, "a", "b", false⟩],
      [], [], [], 2, 2⟩ 1 9 ⟨1, "guest", false, none⟩ ⟨9, some 0, "a", "b", false⟩
      (by decide) (by decide) (by decide)).2.2.2.1⟩

/-- C3 counterexample: a vip_merchant with is_vip=false and three active
promotions is rejected at limit 3, yet the message carries the 一般商家
label, not the VIP 商家 label the claim requires whenever the limit is 3. -/
theorem promotionLimit_label_counterexample :
    (promotionCreatePost ⟨[⟨1, "vip_merchant", false, some 0⟩], [],
        [⟨10, some 0, false⟩, ⟨11, some 0, false⟩, ⟨12, some 0, false⟩], [], [], 7, 13⟩
        1 ⟨true⟩).1
      = ⟨400, Body.errorMsg "一般商家 最多只能建立 3 則動態"⟩
    ∧ Body.errorMsg "一般商家 最多只能建立 3 則動態"
        ≠ Body.errorMsg "VIP 商家 最多只能建立 3 則動態" :=
  ⟨by decide, by decide⟩

/-- C3 (amended): for a merchant/vip_merchant caller with a bound
restaurant, the promotion limit is 3 when role is vip_merchant or is_vip
holds, else 1; at or above the limit the request is rejected (400) with the
localized message embedding the numeric limit and the label chosen by
is_vip alone — VIP 商家 when is_vip, 一般商家 otherwise — and no state
change occurs. -/
theorem promotionCreate_limit_policy (db : DB) (uid : Nat) (q : PromotionPayload) (u : User)
    (hu : findUser db uid = some u)
    (hrole : u.role = "merchant" ∨ u.role = "vip_merchant")
    (hrest : ¬ u.restaurant = none)
    (hlim : (if u.role = "vip_merchant" ∨ u.is_vip = true then 3 else 1)
      ≤ activePromotionCount db u.restaurant) :
    promotionCreatePost db uid q
      = (⟨400, Body.errorMsg ((if u.is_vip then "VIP 商家" else "一般商家")
          ++ " 最多只能建立 "
          ++ toString (if u.role = "vip_merchant" ∨ u.is_vip = true then (3 : Nat) else 1)
          ++ " 則動態")⟩, db) := by
  simp only [promotionCreatePost, hu]
  rw [if_neg (not_not_intro hrole), if_neg hrest, if_pos hlim]

/-- C3 witness: a plain merchant with one active promotion hits limit 1 and
receives the 一般商家 message embedding 1. -/
theorem promotionCreate_limit_policy_witness :
    promotionCreatePost ⟨[⟨1, "merchant", false, some 0⟩], [], [⟨10, some 0, false⟩],
        [], [], 7, 13⟩ 1 ⟨true⟩
      = (⟨400, Body.errorMsg "一般商家 最多只能建立 1 則動態"⟩,
        ⟨[⟨1, "merchant", false, some 0⟩], [], [⟨10, some 0, false⟩], [], [], 7, 13⟩) :=
  (promotionCreate_limit_policy ⟨[⟨1, "merchant", false, some 0⟩], [], [⟨10, some 0, false⟩],
      [], [], 7, 13⟩ 1 ⟨true⟩ ⟨1, "merchant", false, some 0⟩
    (by decide) (Or.inl rfl) (by decide) (by decide)).trans (by decide)

/-- C4 counterexample: a merchant with is_vip=true and one active promotion:
the dashboard reports the promotion limit reached (its max is 1, by role
alone) while promotion creation is still allowed (limit 3 via is_vip) and
returns 201 — so the dashboard flag does not equal the creation-limit test. -/
theorem dashboardFlag_counterexample :
    (merchantGet ⟨[⟨1, "merchant", true, some 0⟩], [], [⟨10, some 0, false⟩],
        [], [], 7, 13⟩ 1 0).1
      = ⟨200, Body.merchantResult "merchant" false true none⟩
    ∧ (promotionCreatePost ⟨[⟨1, "merchant", true, some 0⟩], [], [⟨10, some 0, false⟩],
        [], [], 7, 13⟩ 1 ⟨true⟩).1.status = 201 :=
  ⟨by decide, by decide⟩

/-- C4 (amended): for a merchant/vip_merchant with a bound restaurant the
dashboard computes both limit-reached flags against a role-only max (3 for
vip_merchant, else 1). The coupon flag therefore always equals the
coupon-creation limit test; the promotion flag equals the
promotion-creation limit test exactly on users whose role is vip_merchant
or whose is_vip flag is clear — a merchant with is_vip=true diverges. -/
theorem dashboard_limit_flags (db : DB) (uid today : Nat) (u : User) (r : Nat)
    (hu : findUser db uid = some u)
    (hrole : u.role = "merchant" ∨ u.role = "vip_merchant")
    (hr : u.restaurant = some r) :
    (merchantGet db uid today).1.couponFlag
      = some (decide (couponCreationLimit u ≤ activeCouponCount db u.restaurant))
    ∧ (merchantGet db uid today).1.promotionFlag
      = some (decide (dashboardMaxCount u ≤ activePromotionCount db u.restaurant))
    ∧ ((u.role = "vip_merchant" ∨ u.is_vip = false) →
        (merchantGet db uid today).1.promotionFlag
          = some (decide (promotionCreationLimit u
              ≤ activePromotionCount db u.restaurant))) := by
  have hbody : merchantGet db uid today
      = (⟨200, Body.merchantResult u.role
          (decide ((if u.role = "vip_merchant" then 3 else 1)
            ≤ activeCouponCount db u.restaurant))
          (decide ((if u.role = "vip_merchant" then 3 else 1)
            ≤ activePromotionCount db u.restaurant))
          (match latestSubEnd db u.uuid with
            | some d => if today ≤ d then some d else none
            | none => none)⟩, db) := by
    simp only [merchantGet, hu]
    rw [if_neg (not_not_intro hrole), if_neg (by simp [hr])]
  refine ⟨?_, ?_, ?_⟩
  · rw [hbody, Resp.couponFlag, couponCreationLimit]
  · rw [hbody, Resp.promotionFlag, dashboardMaxCount]
  · intro hcase
    rw [hbody, Resp.promotionFlag, promotionCreationLimit]
    rcases hcase with hvm | hnv
    · simp [hvm]
    · simp [hnv]

/-- C4 witness: a vip_merchant with three active coupons and no promotion:
coupon flag true and equal to the creation-limit test, promotion flag false. -/
theorem dashboard_limit_flags_witness :
    (merchantGet ⟨[⟨1, "vip_merchant", false, some 0⟩],
        [⟨5, some 0, "a", "b", false⟩, ⟨6, some 0, "c", "d", false⟩,
          ⟨7, some 0, "e", "f", false⟩], [], [], [], 9, 9⟩ 1 0).1.couponFlag
      = some (decide (couponCreationLimit ⟨1, "vip_merchant", false, some 0⟩
          ≤ activeCouponCount ⟨[⟨1, "vip_merchant", false, some 0⟩],
            [⟨5, some 0, "a", "b", false⟩, ⟨6, some 0, "c", "d", false⟩,
              ⟨7, some 0, "e", "f", false⟩], [], [], [], 9, 9⟩ (some 0))) :=
  (dashboard_limit_flags ⟨[⟨1, "vip_merchant", false, some 0⟩],
      [⟨5, some 0, "a", "b", false⟩, ⟨6, some 0, "c", "d", false⟩,
        ⟨7, some 0, "e", "f", false⟩], [], [], [], 9, 9⟩ 1 0
    ⟨1, "vip_merchant", false, some 0⟩ 0 (by decide) (Or.inr rfl) (by decide)).1

/-- C5 counterexample: a merchant with no bound restaurant: coupon creation
is not denied — it returns 201 and stores a coupon — and the coupon archive
endpoint denies with 400, not the claimed 403. -/
theorem noRestaurant_counterexample :
    (createCouponPost ⟨[⟨1, "merchant", false, none⟩], [], [], [], [], 7, 13⟩ 1
        ⟨true, "t", "x"⟩).1.status = 201
    ∧ (createCouponPost ⟨[⟨1, "merchant", false, none⟩], [], [], [], [], 7, 13⟩ 1
        ⟨true, "t", "x"⟩).2.coupons = [⟨7, none, "t", "x", false⟩]
    ∧ (couponDetailPatch ⟨[⟨1, "merchant", false, none⟩], [], [], [], [], 7, 13⟩ 1 9).1
        = ⟨400, Body.success false⟩ :=
  ⟨by decide, by decide, by decide⟩

/-- C5 (amended): a merchant/vip_merchant caller with no bound restaurant
is denied by the coupon and promotion archive endpoints with 400 (not 403)
and no state change; coupon creation runs no restaurant-binding check and
proceeds through quota and validation (a merchant under quota with a valid
payload gets 201 and a stored coupon with no restaurant); only promotion
creation answers with the distinct no-restaurant 403. -/
theorem noRestaurant_policy (db : DB) (uid cid pid : Nat) (p : CouponPayload)
    (q : PromotionPayload) (u : User)
    (hu : findUser db uid = some u)
    (hrole : u.role = "merchant" ∨ u.role = "vip_merchant")
    (hr : u.restaurant = none) :
    couponDetailPatch db uid cid = (⟨400, Body.success false⟩, db)
    ∧ promotionDetailPatch db uid pid = (⟨400, Body.success false⟩, db)
    ∧ promotionCreatePost db uid q = (⟨403, Body.errorMsg "帳戶未綁定餐廳"⟩, db)
    ∧ (u.role = "merchant" → hasActiveCoupon db none = false → p.valid = true →
        (createCouponPost db uid p).1.status = 201
        ∧ (createCouponPost db uid p).2.coupons
            = db.coupons ++ [⟨db.nextCouponId, none, p.title, p.terms, false⟩]) := by
  refine ⟨?_, ?_, ?_, ?_⟩
  · simp only [couponDetailPatch, hu, hr]
    rw [if_neg (not_not_intro hrole)]
  · simp only [promotionDetailPatch, hu, hr]
    rw [if_neg (not_not_intro hrole)]
  · simp only [promotionCreatePost, hu]
    rw [if_neg (not_not_intro hrole), if_pos hr]
  · intro hm hno hv
    simp only [createCouponPost, hu]
    rw [if_neg (not_not_intro hrole),
      if_neg (fun h => by rw [hr, hno] at h; exact Bool.false_ne_true h.2),
      if_neg (fun h => absurd (hm ▸ h.1) (by decide)), if_pos hv, hr]
    exact ⟨rfl, rfl⟩

/-- C5 witness: the vip_merchant variant of the archive denial and the
no-restaurant promotion denial at a concrete state. -/
theorem noRestaurant_policy_witness :
    couponDetailPatch ⟨[⟨1, "vip_merchant", true, none⟩], [], [], [], [], 4, 4⟩ 1 9
      = (⟨400, Body.success false⟩, ⟨[⟨1, "vip_merchant", true, none⟩], [], [], [], [], 4, 4⟩)
    ∧ promotionCreatePost ⟨[⟨1, "vip_merchant", true, none⟩], [], [], [], [], 4, 4⟩ 1 ⟨true⟩
      = (⟨403, Body.errorMsg "帳戶未綁定餐廳"⟩,
        ⟨[⟨1, "vip_merchant", true, none⟩], [], [], [], [], 4, 4⟩) :=
  ⟨(noRestaurant_policy ⟨[⟨1, "vip_merchant", true, none⟩], [], [], [], [], 4, 4⟩ 1 9 9
      ⟨true, "t", "x"⟩ ⟨true⟩ ⟨1, "vip_merchant", true, none⟩
      (by decide) (Or.inr rfl) (by decide)).1,
    (noRestaurant_policy ⟨[⟨1, "vip_merchant", true, none⟩], [], [], [], [], 4, 4⟩ 1 9 9
      ⟨true, "t", "x"⟩ ⟨true⟩ ⟨1, "vip_merchant", true, none⟩
      (by decide) (Or.inr rfl) (by decide)).2.2.1⟩

/-- C6 counterexample: an archived coupon owned by another restaurant: the
owner-side detail endpoint returns 404 (its lookup filters to non-archived
rows), not the 403 the claim asserts for every foreign coupon. -/
theorem ownershipMismatch_counterexample :
    (couponDetailGet ⟨[⟨1, "merchant", false, some 0⟩], [⟨10, some 1, "a", "b", true⟩],
        [], [], [], 7, 13⟩ 1 10).1
      = ⟨404, Body.success false⟩
    ∧ (404 : Nat) ≠ 403 :=
  ⟨by decide, by decide⟩

/-- C6 (amended): for a merchant/vip_merchant caller with restaurant r and a
target of a different restaurant, the archive endpoints (ownership-scoped
lookup) answer 404 and change nothing; the detail endpoints (ownership
compared after an archived-filtered lookup) answer 403 whenever the target
is non-archived — an archived foreign target yields 404 from detail too. -/
theorem ownershipMismatch_responses (db : DB) (uid cid pid : Nat) (u : User) (r : Nat)
    (c : Coupon) (w : Promotion)
    (hu : findUser db uid = some u)
    (hrole : u.role = "merchant" ∨ u.role = "vip_merchant")
    (hr : u.restaurant = some r)
    (hcall : ∀ x ∈ db.coupons, x.uuid = cid → ¬ x.restaurant = some r)
    (hpall : ∀ x ∈ db.promotions, x.uuid = pid → ¬ x.restaurant = some r) :
    couponDetailPatch db uid cid = (⟨404, Body.success false⟩, db)
    ∧ promotionDetailPatch db uid pid = (⟨404, Body.success false⟩, db)
    ∧ (findActiveCoupon db cid = some c →
        couponDetailGet db uid cid = (⟨403, Body.success false⟩, db))
    ∧ (findActivePromotion db pid = some w →
        promotionDetailGet db uid pid = (⟨403, Body.success false⟩, db)) := by
  have hfc : db.coupons.find? (fun x => x.uuid == cid && x.restaurant == some r) = none := by
    rw [List.find?_eq_none]
    intro x hx hp
    rw [Bool.and_eq_true, beq_iff_eq, beq_iff_eq] at hp
    exact hcall x hx hp.1 hp.2
  have hfp : db.promotions.find? (fun x => x.uuid == pid && x.restaurant == some r) = none := by
    rw [List.find?_eq_none]
    intro x hx hp
    rw [Bool.and_eq_true, beq_iff_eq, beq_iff_eq] at hp
    exact hpall x hx hp.1 hp.2
  refine ⟨?_, ?_, ?_, ?_⟩
  · simp only [couponDetailPatch, hu, hr]
    rw [if_neg (not_not_intro hrole)]
    simp only [hfc]
  · simp only [promotionDetailPatch, hu, hr]
    rw [if_neg (not_not_intro hrole)]
    simp only [hfp]
  · intro hc
    have hmem := List.mem_of_find?_eq_some hc
    have hpred := List.find?_some hc
    rw [Bool.and_eq_true, beq_iff_eq] at hpred
    have hne : ¬ u.restaurant = c.restaurant := by
      rw [hr]
      intro heq
      exact hcall c hmem hpred.1 heq.symm
    simp only [couponDetailGet, hu, hc]
    rw [if_pos hne]
  · intro hw
    have hmem := List.mem_of_find?_eq_some hw
    have hpred := List.find?_some hw
    rw [Bool.and_eq_true, beq_iff_eq] at hpred
    have hne : ¬ u.restaurant = w.restaurant := by
      rw [hr]
      intro heq
      exact hpall w hmem hpred.1 heq.symm
    simp only [promotionDetailGet, hu, hw]
    rw [if_pos hne]

/-- C6 witness: a merchant of restaurant 0 against a non-archived coupon and
promotion of restaurant 1: archive answers 404, detail answers 403. -/
theorem ownershipMismatch_responses_witness :
    couponDetailPatch ⟨[⟨1, "merchant", false, some 0⟩], [⟨10, some 1, "a", "b", false⟩],
        [⟨20, some 1, false⟩], [], [], 7, 13⟩ 1 10
      = (⟨404, Body.success false⟩, ⟨[⟨1, "merchant", false, some 0⟩],
          [⟨10, some 1, "a", "b", false⟩], [⟨20, some 1, false⟩], [], [], 7, 13⟩)
    ∧ couponDetailGet ⟨[⟨1, "merchant", false, some 0⟩], [⟨10, some 1, "a", "b", false⟩],
        [⟨20, some 1, false⟩], [], [], 7, 13⟩ 1 10
      = (⟨403, Body.success false⟩, ⟨[⟨1, "merchant", false, some 0⟩],
          [⟨10, some 1, "a", "b", false⟩], [⟨20, some 1, false⟩], [], [], 7, 13⟩) :=
  ⟨(ownershipMismatch_responses ⟨[⟨1, "merchant", false, some 0⟩],
      [⟨10, some 1, "a", "b", false⟩], [⟨20, some 1, false⟩], [], [], 7, 13⟩ 1 10 20
      ⟨1, "merchant", false, some 0⟩ 0 ⟨10, some 1, "a", "b", false⟩ ⟨20, some 1, false⟩
      (by decide) (Or.inl rfl) (by decide) (by decide) (by decide)).1,
    (ownershipMismatch_responses ⟨[⟨1, "merchant", false, some 0⟩],
      [⟨10, some 1, "a", "b", false⟩], [⟨20, some 1, false⟩], [], [], 7, 13⟩ 1 10 20
      ⟨1, "merchant", false, some 0⟩ 0 ⟨10, some 1, "a", "b", false⟩ ⟨20, some 1, false⟩
      (by decide) (Or.inl rfl) (by decide) (by decide) (by decide)).2.2.1 (by decide)⟩

/-- C7: for an archived coupon (every row carrying its uuid is archived):
a claim attempt returns 404 and changes nothing, the owning merchant's
detail request returns 404 (the lookup filters to non-archived rows), yet
the owning merchant's usage request still returns 200 with the coupon's
title and its UserCoupon rows, since usage does not filter by archived
state. -/
theorem archivedCoupon_endpoints (db : DB) (uid cid : Nat) (u : User) (c : Coupon)
    (hu : findUser db uid = some u)
    (hc : findCoupon db cid = some c)
    (hall : ∀ x ∈ db.coupons, x.uuid = cid → x.is_archived = true)
    (hown : u.restaurant = c.restaurant) :
    claimCouponPost db uid cid = (⟨404, Body.success false⟩, db)
    ∧ couponDetailGet db uid cid = (⟨404, Body.success false⟩, db)
    ∧ couponUsageGet db uid cid
        = (⟨200, Body.usageResult c.title (couponClaims db c.uuid)⟩, db) := by
  have hnone : findActiveCoupon db cid = none := by
    rw [findActiveCoupon, List.find?_eq_none]
    intro x hx hp
    rw [Bool.and_eq_true, beq_iff_eq, Bool.not_eq_eq_eq_not, Bool.not_true] at hp
    exact absurd (hall x hx hp.1) (by simp [hp.2])
  refine ⟨?_, ?_, ?_⟩
  · simp only [claimCouponPost, hu, hnone]
  · simp only [couponDetailGet, hu, hnone]
  · simp only [couponUsageGet, hu, hc]
    rw [if_neg (not_not_intro hown)]

/-- C7 witness: an archived coupon with one claimed row: claim 404, detail
404, usage 200 with the row. -/
theorem archivedCoupon_endpoints_witness :
    claimCouponPost ⟨[⟨1, "merchant", false, some 0⟩], [⟨10, some 0, "a", "b", true⟩],
        [], [⟨2, 10, false⟩], [], 7, 13⟩ 1 10
      = (⟨404, Body.success false⟩, ⟨[⟨1, "merchant", false, some 0⟩],
          [⟨10, some 0, "a", "b", true⟩], [], [⟨2, 10, false⟩], [], 7, 13⟩)
    ∧ couponUsageGet ⟨[⟨1, "merchant", false, some 0⟩], [⟨10, some 0, "a", "b", true⟩],
        [], [⟨2, 10, false⟩], [], 7, 13⟩ 1 10
      = (⟨200, Body.usageResult "a" [⟨2, 10, false⟩]⟩, ⟨[⟨1, "merchant", false, some 0⟩],
          [⟨10, some 0, "a", "b", true⟩], [], [⟨2, 10, false⟩], [], 7, 13⟩) :=
  ⟨(archivedCoupon_endpoints ⟨[⟨1, "merchant", false, some 0⟩],
      [⟨10, some 0, "a", "b", true⟩], [], [⟨2, 10, false⟩], [], 7, 13⟩ 1 10
      ⟨1, "merchant", false, some 0⟩ ⟨10, some 0, "a", "b", true⟩
      (by decide) (by decide) (by decide) (by decide)).1,
    ((archivedCoupon_endpoints ⟨[⟨1, "merchant", false, some 0⟩],
      [⟨10, some 0, "a", "b", true⟩], [], [⟨2, 10, false⟩], [], 7, 13⟩ 1 10
      ⟨1, "merchant", false, some 0⟩ ⟨10, some 0, "a", "b", true⟩
      (by decide) (by decide) (by decide) (by decide)).2.2).trans (by decide)⟩

theorem archiveCoupon_of_archived (c : Coupon) (h : c.is_archived = true) :
    archiveCoupon c = c := by
  cases c
  simp_all [archiveCoupon]

theorem archivePromotion_of_archived (q : Promotion) (h : q.is_archived = true) :
    archivePromotion q = q := by
  cases q
  simp_all [archivePromotion]

theorem archivedKept_refl (db : DB) : archivedKept db db :=
  ⟨fun _ hc _ => hc, fun _ hq _ => hq⟩

theorem mem_archMapCoupon (l : List Coupon) (cond : Coupon → Bool) (c : Coupon)
    (hm : c ∈ l) (ha : c.is_archived = true) :
    c ∈ l.map (fun x => if cond x then archiveCoupon x else x) := by
  have h := List.mem_map_of_mem (fun x => if cond x then archiveCoupon x else x) hm
  by_cases hcnd : cond c = true
  · simpa [hcnd, archiveCoupon_of_archived c ha] using h
  · simpa [hcnd] using h

theorem mem_archMapPromotion (l : List Promotion) (cond : Promotion → Bool) (q : Promotion)
    (hm : q ∈ l) (ha : q.is_archived = true) :
    q ∈ l.map (fun x => if cond x then archivePromotion x else x) := by
  have h := List.mem_map_of_mem (fun x => if cond x then archivePromotion x else x) hm
  by_cases hcnd : cond q = true
  · simpa [hcnd, archivePromotion_of_archived q ha] using h
  · simpa [hcnd] using h

theorem kept_createCoupon (db : DB) (uid : Nat) (p : CouponPayload) :
    archivedKept db (createCouponPost db uid p).2 := by
  rw [createCouponPost]
  repeat' split
  all_goals first
    | exact archivedKept_refl db
    | exact ⟨fun c hc _ => List.mem_append_left _ hc, fun w hw _ => hw⟩

theorem kept_claimCoupon (db : DB) (uid cid : Nat) :
    archivedKept db (claimCouponPost db uid cid).2 := by
  rw [claimCouponPost]
  repeat' split
  all_goals exact archivedKept_refl db

theorem kept_promotionCreate (db : DB) (uid : Nat) (q : PromotionPayload) :
    archivedKept db (promotionCreatePost db uid q).2 := by
  rw [promotionCreatePost]
  repeat' split
  all_goals dsimp only
  all_goals repeat' split
  all_goals first
    | exact archivedKept_refl db
    | exact ⟨fun c hc _ => hc, fun w hw _ => List.mem_append_left _ hw⟩

theorem kept_merchantGet (db : DB) (uid today : Nat) :
    archivedKept db (merchantGet db uid today).2 := by
  rw [merchantGet]
  repeat' split
  all_goals exact archivedKept_refl db

theorem kept_couponUsage (db : DB) (uid cid : Nat) :
    archivedKept db (couponUsageGet db uid cid).2 := by
  rw [couponUsageGet]
  repeat' split
  all_goals exact archivedKept_refl db

theorem kept_couponDetailGet (db : DB) (uid cid : Nat) :
    archivedKept db (couponDetailGet db uid cid).2 := by
  rw [couponDetailGet]
  repeat' split
  all_goals exact archivedKept_refl db

theorem kept_couponPatch (db : DB) (uid cid : Nat) :
    archivedKept db (couponDetailPatch db uid cid).2 := by
  rw [couponDetailPatch]
  repeat' split
  all_goals first
    | exact archivedKept_refl db
    | exact ⟨fun c hc ha => mem_archMapCoupon _ _ c hc ha, fun w hw _ => hw⟩

theorem kept_promotionDetailGet (db : DB) (uid pid : Nat) :
    archivedKept db (promotionDetailGet db uid pid).2 := by
  rw [promotionDetailGet]
  repeat' split
  all_goals exact archivedKept_refl db

theorem kept_promotionPatch (db : DB) (uid pid : Nat) :
    archivedKept db (promotionDetailPatch db uid pid).2 := by
  rw [promotionDetailPatch]
  repeat' split
  all_goals first
    | exact archivedKept_refl db
    | exact ⟨fun c hc _ => hc, fun w hw ha => mem_archMapPromotion _ _ w hw ha⟩

/-- C8: archiving is monotonic and tolerant: every operation of the module
keeps every archived coupon and promotion row present and archived
(no transition resets is_archived), and an owning merchant archiving an
already-archived coupon or promotion succeeds again with 200 success=true,
the row staying archived. -/
theorem archiving_monotonic_tolerant (db : DB) (uid cid pid today : Nat)
    (p : CouponPayload) (q : PromotionPayload) (u : User) (r : Nat)
    (c : Coupon) (w : Promotion) :
    archivedKept db (createCouponPost db uid p).2
    ∧ archivedKept db (claimCouponPost db uid cid).2
    ∧ archivedKept db (promotionCreatePost db uid q).2
    ∧ archivedKept db (merchantGet db uid today).2
    ∧ archivedKept db (couponUsageGet db uid cid).2
    ∧ archivedKept db (couponDetailGet db uid cid).2
    ∧ archivedKept db (couponDetailPatch db uid cid).2
    ∧ archivedKept db (promotionDetailGet db uid pid).2
    ∧ archivedKept db (promotionDetailPatch db uid pid).2
    ∧ (findUser db uid = some u → (u.role = "merchant" ∨ u.role = "vip_merchant") →
        u.restaurant = some r →
        db.coupons.find? (fun x => x.uuid == cid && x.restaurant == some r) = some c →
        c.is_archived = true →
        (couponDetailPatch db uid cid).1 = ⟨200, Body.success true⟩
          ∧ c ∈ (couponDetailPatch db uid cid).2.coupons)
    ∧ (findUser db uid = some u → (u.role = "merchant" ∨ u.role = "vip_merchant") →
        u.restaurant = some r →
        db.promotions.find? (fun x => x.uuid == pid && x.restaurant == some r) = some w →
        w.is_archived = true →
        (promotionDetailPatch db uid pid).1 = ⟨200, Body.success true⟩
          ∧ w ∈ (promotionDetailPatch db uid pid).2.promotions) := by
  refine ⟨kept_createCoupon db uid p, kept_claimCoupon db uid cid,
    kept_promotionCreate db uid q, kept_merchantGet db uid today,
    kept_couponUsage db uid cid, kept_couponDetailGet db uid cid,
    kept_couponPatch db uid cid, kept_promotionDetailGet db uid pid,
    kept_promotionPatch db uid pid, ?_, ?_⟩
  · intro hu hrole hr hfind harch
    simp only [couponDetailPatch, hu, hr]
    rw [if_neg (not_not_intro hrole)]
    simp only [hfind]
    exact ⟨trivial, mem_archMapCoupon _ _ c (List.mem_of_find?_eq_some hfind) harch⟩
  · intro hu hrole hr hfind harch
    simp only [promotionDetailPatch, hu, hr]
    rw [if_neg (not_not_intro hrole)]
    simp only [hfind]
    exact ⟨trivial, mem_archMapPromotion _ _ w (List.mem_of_find?_eq_some hfind) harch⟩

/-- C8 witness: a merchant re-archiving an already archived coupon and
promotion of its own restaurant: both answer 200 success=true. -/
theorem archiving_monotonic_tolerant_witness :
    ((couponDetailPatch ⟨[⟨1, "merchant", false, some 0⟩], [⟨10, some 0, "a", "b", true⟩],
        [⟨20, some 0, true⟩], [], [], 7, 13⟩ 1 10).1 = ⟨200, Body.success true⟩
      ∧ ⟨10, some 0, "a", "b", true⟩ ∈ (couponDetailPatch ⟨[⟨1, "merchant", false, some 0⟩],
        [⟨10, some 0, "a", "b", true⟩], [⟨20, some 0, true⟩], [], [], 7, 13⟩ 1 10).2.coupons)
    ∧ ((promotionDetailPatch ⟨[⟨1, "merchant", false, some 0⟩], [⟨10, some 0, "a", "b", true⟩],
        [⟨20, some 0, true⟩], [], [], 7, 13⟩ 1 20).1 = ⟨200, Body.success true⟩
      ∧ ⟨20, some 0, true⟩ ∈ (promotionDetailPatch ⟨[⟨1, "merchant", false, some 0⟩],
        [⟨10, some 0, "a", "b", true⟩], [⟨20, some 0, true⟩], [], [], 7, 13⟩ 1 20).2.promotions) :=
  ⟨(archiving_monotonic_tolerant ⟨[⟨1, "merchant", false, some 0⟩],
      [⟨10, some 0, "a", "b", true⟩], [⟨20, some 0, true⟩], [], [], 7, 13⟩ 1 10 20 0
      ⟨true, "t", "x"⟩ ⟨true⟩ ⟨1, "merchant", false, some 0⟩ 0
      ⟨10, some 0, "a", "b", true⟩ ⟨20, some 0, true⟩).2.2.2.2.2.2.2.2.2.1
      (by decide) (Or.inl rfl) (by decide) (by decide) (by decide),
    (archiving_monotonic_tolerant ⟨[⟨1, "merchant", false, some 0⟩],
      [⟨10, some 0, "a", "b", true⟩], [⟨20, some 0, true⟩], [], [], 7, 13⟩ 1 10 20 0
      ⟨true, "t", "x"⟩ ⟨true⟩ ⟨1, "merchant", false, some 0⟩ 0
      ⟨10, some 0, "a", "b", true⟩ ⟨20, some 0, true⟩).2.2.2.2.2.2.2.2.2.2
      (by decide) (Or.inl rfl) (by decide) (by decide) (by decide)⟩

/-- C9: on a dashboard request by a merchant with a bound restaurant and at
least one subscription, the reported vip_expiry equals the greatest
subscription end date exactly when that date is on or after today, and is
null otherwise; in particular an end date equal to today is reported and
one strictly before today yields null. -/
theorem dashboard_vip_expiry (db : DB) (uid today d : Nat) (u : User) (r : Nat)
    (hu : findUser db uid = some u)
    (hrole : u.role = "merchant" ∨ u.role = "vip_merchant")
    (hr : u.restaurant = some r)
    (hd : latestSubEnd db u.uuid = some d) :
    (merchantGet db uid today).1.vipExpiry = some (if today ≤ d then some d else none)
    ∧ ((merchantGet db uid today).1.vipExpiry = some (some d) ↔ today ≤ d)
    ∧ (d < today → (merchantGet db uid today).1.vipExpiry = some none) := by
  have hbody : (merchantGet db uid today).1.vipExpiry
      = some (if today ≤ d then some d else none) := by
    simp only [merchantGet, hu]
    rw [if_neg (not_not_intro hrole), if_neg (by simp [hr])]
    simp only [hd, Resp.vipExpiry]
  refine ⟨hbody, ?_, ?_⟩
  · rw [hbody]
    by_cases hle : today ≤ d
    · simp [hle]
    · simp [hle]
  · intro hlt
    rw [hbody, if_neg (by omega)]

/-- C9 witness: a subscription ending today (day 5) is reported non-null. -/
theorem dashboard_vip_expiry_witness :
    ((merchantGet ⟨[⟨1, "merchant", false, some 0⟩], [], [], [], [⟨1, 5⟩], 7, 13⟩ 1 5).1.vipExpiry
        = some (some 5) ↔ 5 ≤ 5)
    ∧ (merchantGet ⟨[⟨1, "merchant", false, some 0⟩], [], [], [], [⟨1, 5⟩], 7, 13⟩ 1 5).1.vipExpiry
        = some (some 5) :=
  ⟨(dashboard_vip_expiry ⟨[⟨1, "merchant", false, some 0⟩], [], [], [], [⟨1, 5⟩], 7, 13⟩ 1 5 5
      ⟨1, "merchant", false, some 0⟩ 0 (by decide) (Or.inl rfl) (by decide) (by decide)).2.1,
    ((dashboard_vip_expiry ⟨[⟨1, "merchant", false, some 0⟩], [], [], [], [⟨1, 5⟩], 7, 13⟩ 1 5 5
      ⟨1, "merchant", false, some 0⟩ 0 (by decide) (Or.inl rfl) (by decide) (by decide)).2.1).mpr
      (by decide)⟩

/-- C10: a successful archive (200 success=true) changes only the target's
is_archived flag: users, user-coupons, subscriptions and the other entity
table are untouched, the patched table keeps its length, rows not matching
the scoped lookup key are kept verbatim, matching rows are kept with only
is_archived set, and the archive write preserves every other field. -/
theorem archive_frame (db : DB) (uid cid pid : Nat) (u : User) (r : Nat)
    (hu : findUser db uid = some u)
    (hrole : u.role = "merchant" ∨ u.role = "vip_merchant")
    (hr : u.restaurant = some r) :
    (∀ c : Coupon,
      db.coupons.find? (fun x => x.uuid == cid && x.restaurant == some r) = some c →
      (couponDetailPatch db uid cid).1 = ⟨200, Body.success true⟩
      ∧ (couponDetailPatch db uid cid).2.users = db.users
      ∧ (couponDetailPatch db uid cid).2.promotions = db.promotions
      ∧ (couponDetailPatch db uid cid).2.userCoupons = db.userCoupons
      ∧ (couponDetailPatch db uid cid).2.subscriptions = db.subscriptions
      ∧ (couponDetailPatch db uid cid).2.coupons.length = db.coupons.length
      ∧ (∀ x ∈ db.coupons, ¬(x.uuid = cid ∧ x.restaurant = some r) →
          x ∈ (couponDetailPatch db uid cid).2.coupons)
      ∧ (∀ x ∈ db.coupons, x.uuid = cid ∧ x.restaurant = some r →
          archiveCoupon x ∈ (couponDetailPatch db uid cid).2.coupons)
      ∧ (∀ x : Coupon, (archiveCoupon x).uuid = x.uuid
          ∧ (archiveCoupon x).restaurant = x.restaurant
          ∧ (archiveCoupon x).title = x.title ∧ (archiveCoupon x).terms = x.terms))
    ∧ (∀ w : Promotion,
      db.promotions.find? (fun x => x.uuid == pid && x.restaurant == some r) = some w →
      (promotionDetailPatch db uid pid).1 = ⟨200, Body.success true⟩
      ∧ (promotionDetailPatch db uid pid).2.users = db.users
      ∧ (promotionDetailPatch db uid pid).2.coupons = db.coupons
      ∧ (promotionDetailPatch db uid pid).2.userCoupons = db.userCoupons
      ∧ (promotionDetailPatch db uid pid).2.subscriptions = db.subscriptions
      ∧ (promotionDetailPatch db uid pid).2.promotions.length = db.promotions.length
      ∧ (∀ x ∈ db.promotions, ¬(x.uuid = pid ∧ x.restaurant = some r) →
          x ∈ (promotionDetailPatch db uid pid).2.promotions)
      ∧ (∀ x ∈ db.promotions, x.uuid = pid ∧ x.restaurant = some r →
          archivePromotion x ∈ (promotionDetailPatch db uid pid).2.promotions)
      ∧ (∀ x : Promotion, (archivePromotion x).uuid = x.uuid
          ∧ (archivePromotion x).restaurant = x.restaurant)) := by
  constructor
  · intro c hfind
    have heq : couponDetailPatch db uid cid
        = (⟨200, Body.success true⟩,
          { db with coupons := db.coupons.map (fun x =>
              if x.uuid == cid && x.restaurant == some r then archiveCoupon x else x) }) := by
      simp only [couponDetailPatch, hu, hr]
      rw [if_neg (not_not_intro hrole)]
      simp only [hfind]
    rw [heq]
    refine ⟨rfl, rfl, rfl, rfl, rfl, by simp, ?_, ?_, fun x => ⟨rfl, rfl, rfl, rfl⟩⟩
    · intro x hx hnot
      have h := List.mem_map_of_mem (fun y =>
        if y.uuid == cid && y.restaurant == some r then archiveCoupon y else y) hx
      have hcond : ¬ ((x.uuid == cid && x.restaurant == some r) = true) := by
        rw [Bool.and_eq_true, beq_iff_eq, beq_iff_eq]
        exact hnot
      simpa [hcond] using h
    · intro x hx hyes
      have h := List.mem_map_of_mem (fun y =>
        if y.uuid == cid && y.restaurant == some r then archiveCoupon y else y) hx
      have hcond : (x.uuid == cid && x.restaurant == some r) = true := by
        rw [Bool.and_eq_true, beq_iff_eq, beq_iff_eq]
        exact hyes
      simpa [hcond] using h
  · intro w hfind
    have heq : promotionDetailPatch db uid pid
        = (⟨200, Body.success true⟩,
          { db with promotions := db.promotions.map (fun x =>
              if x.uuid == pid && x.restaurant == some r then archivePromotion x else x) }) := by
      simp only [promotionDetailPatch, hu, hr]
      rw [if_neg (not_not_intro hrole)]
      simp only [hfind]
    rw [heq]
    refine ⟨rfl, rfl, rfl, rfl, rfl, by simp, ?_, ?_, fun x => ⟨rfl, rfl⟩⟩
    · intro x hx hnot
      have h := List.mem_map_of_mem (fun y =>
        if y.uuid == pid && y.restaurant == some r then archivePromotion y else y) hx
      have hcond : ¬ ((x.uuid == pid && x.restaurant == some r) = true) := by
        rw [Bool.and_eq_true, beq_iff_eq, beq_iff_eq]
        exact hnot
      simpa [hcond] using h
    · intro x hx hyes
      have h := List.mem_map_of_mem (fun y =>
        if y.uuid == pid && y.restaurant == some r then archivePromotion y else y) hx
      have hcond : (x.uuid == pid && x.restaurant == some r) = true := by
        rw [Bool.and_eq_true, beq_iff_eq, beq_iff_eq]
        exact hyes
      simpa [hcond] using h

/-- C10 witness: archiving coupon 10 leaves the user-coupon table and a
foreign coupon row untouched while answering 200 success=true. -/
theorem archive_frame_witness :
    (couponDetailPatch ⟨[⟨1, "merchant", false, some 0⟩],
        [⟨10, some 0, "a", "b", false⟩, ⟨11, some 1, "c", "d", false⟩],
        [⟨20, some 0, false⟩], [⟨2, 10, false⟩], [], 30, 30⟩ 1 10).1
      = ⟨200, Body.success true⟩
    ∧ (couponDetailPatch ⟨[⟨1, "merchant", false, some 0⟩],
        [⟨10, some 0, "a", "b", false⟩, ⟨11, some 1, "c", "d", false⟩],
        [⟨20, some 0, false⟩], [⟨2, 10, false⟩], [], 30, 30⟩ 1 10).2.userCoupons
      = [⟨2, 10, false⟩]
    ∧ ⟨11, some 1, "c", "d", false⟩ ∈ (couponDetailPatch ⟨[⟨1, "merchant", false, some 0⟩],
        [⟨10, some 0, "a", "b", false⟩, ⟨11, some 1, "c", "d", false⟩],
        [⟨20, some 0, false⟩], [⟨2, 10, false⟩], [], 30, 30⟩ 1 10).2.coupons :=
  ⟨((archive_frame ⟨[⟨1, "merchant", false, some 0⟩],
      [⟨10, some 0, "a", "b", false⟩, ⟨11, some 1, "c", "d", false⟩],
      [⟨20, some 0, false⟩], [⟨2, 10, false⟩], [], 30, 30⟩ 1 10 20
      ⟨1, "merchant", false, some 0⟩ 0 (by decide) (Or.inl rfl) (by decide)).1
      ⟨10, some 0, "a", "b", false⟩ (by decide)).1,
    ((archive_frame ⟨[⟨1, "merchant", false, some 0⟩],
      [⟨10, some 0, "a", "b", false⟩, ⟨11, some 1, "c", "d", false⟩],
      [⟨20, some 0, false⟩], [⟨2, 10, false⟩], [], 30, 30⟩ 1 10 20
      ⟨1, "merchant", false, some 0⟩ 0 (by decide) (Or.inl rfl) (by decide)).1
      ⟨10, some 0, "a", "b", false⟩ (by decide)).2.2.2.1,
    ((archive_frame ⟨[⟨1, "merchant", false, some 0⟩],
      [⟨10, some 0, "a", "b", false⟩, ⟨11, some 1, "c", "d", false⟩],
      [⟨20, some 0, false⟩], [⟨2, 10, false⟩], [], 30, 30⟩ 1 10 20
      ⟨1, "merchant", false, some 0⟩ 0 (by decide) (Or.inl rfl) (by decide)).1
      ⟨10, some 0, "a", "b", false⟩ (by decide)).2.2.2.2.2.2.1
      ⟨11, some 1, "c", "d", false⟩ (by decide) (by decide)⟩
